import Mathlib

/-!
Verification development for the review-scraping script `src/V1.0/src/Scrapping.js`.

The script is a browser-console program: a field extractor that reads review
containers from a DOM and a pagination driver that walks pages, accumulating
records in module-level mutable state.  We embed it shallowly:

* a DOM element is its text content; a container answers `querySelector`
  requests (modelled as a function from selector strings to optional elements);
* a document answers `querySelectorAll` for container discovery and
  `querySelector` for the next-page navigation button;
* the module-level mutable state (`allReviews`, `currentPage`, `isProcessing`)
  becomes an explicit `RunState` threaded through the driver;
* the `while` loop of `processAllPages` becomes structural recursion on a fuel
  argument; the loop increments `currentPage` on every iteration and stops as
  soon as `currentPage < MAX_PAGES` fails, so fuel `MAX_PAGES` is always enough
  and the fuel-zero fallback is unreachable from the entry point;
* JavaScript floats are idealised as rationals (the only decimal the regex can
  produce is one digit before and at most one after the separator);
* the possibility of a runtime exception inside the `try` block (caught by the
  outer `catch`, with `finally` clearing the running flag) is modelled by an
  optional fault-injection argument: `some k` aborts the pagination loop at its
  k-th iteration.
-/

/-- Configuration constant `MAX_PAGES = 20` (safety page ceiling). -/
def MAX_PAGES : Nat := 20

/-- Configuration constant `DELAY_BETWEEN_PAGES = 3000` milliseconds. -/
def DELAY_BETWEEN_PAGES : Nat := 3000

/-- Load-wait configuration: `maxAttempts = 30` polls. -/
def maxAttempts : Nat := 30

/-- Load-wait configuration: poll interval of 1000 milliseconds. -/
def pollIntervalMs : Nat := 1000

/-- Characters the JavaScript whitespace class matches (ASCII part: the texts
the script handles are plain review strings). -/
def isWs (c : Char) : Bool :=
  c = ' ' || c = '\t' || c = '\n' || c = '\r' || c = '\x0b' || c = '\x0c'

/-- One pass of `replace(\x7b/\s+/g\x7d, single space)`: a maximal whitespace
run becomes one space.  The boolean records whether the previous character was
whitespace. -/
def collapseWs : Bool → List Char → List Char
  | _, [] => []
  | prevWs, c :: rest =>
    if isWs c then
      if prevWs then collapseWs true rest
      else ' ' :: collapseWs true rest
    else c :: collapseWs false rest

/-- `text.trim()`: drop leading and trailing whitespace. -/
def trimWs (cs : List Char) : List Char :=
  ((cs.dropWhile isWs).reverse.dropWhile isWs).reverse

/-- `cleanText` from the script: trim, then collapse interior whitespace runs
to single spaces (the script returns the empty string for a missing text,
which call sites here pass explicitly). -/
def cleanText (s : String) : String :=
  String.mk (collapseWs false (trimWs s.data))

/-- Numeric value of a decimal digit character, if it is one. -/
def digitVal (c : Char) : Option Nat :=
  if c.isDigit then some (c.toNat - 48) else none

/-- The leftmost match of the rating regex, digit-comma-digit or a single
digit, alternation tried in that order at each position, exactly as
`match(/([0-9],[0-9]|[0-9])/)` does.  Returns the integer digit and the
optional decimal digit. -/
def ratingMatch : List Char → Option (Nat × Option Nat)
  | [] => none
  | c :: rest =>
    match digitVal c with
    | some d =>
      match rest with
      | ',' :: c2 :: _ =>
        match digitVal c2 with
        | some d2 => some (d, some d2)
        | none => some (d, none)
      | _ => some (d, none)
    | none => ratingMatch rest

/-- Rating parsing of the script: regex match, comma normalised to a dot,
`parseFloat`; `none` models the empty string the script stores when the regex
does not match. -/
def parsedRating (s : String) : Option ℚ :=
  match ratingMatch s.data with
  | some (d, some d2) => some ((d : ℚ) + (d2 : ℚ) / 10)
  | some (d, none) => some (d : ℚ)
  | none => none

/-- A DOM element, reduced to the `textContent` the extractor reads. -/
structure Element where
  textContent : String
deriving DecidableEq

/-- A review container: answers `querySelector` for the selector strings the
extractor uses. -/
structure Container where
  query : String → Option Element

/-- The navigation button: only its class list matters (`a-disabled`). -/
structure NavButton where
  classes : List String
deriving DecidableEq

/-- The page document: `queryAll` models `querySelectorAll` for container
discovery, `query` models `querySelector` for the navigation selectors. -/
structure Document where
  queryAll : String → List Container
  query : String → Option NavButton

/-- The container-discovery selector list of `extractReviewsFromCurrentPage`. -/
def reviewSelectors : List String :=
  ["[data-hook=\"review\"]", ".review", ".a-section.review"]

/-- The rating selector list. -/
def ratingSelectors : List String :=
  ["[data-hook=\"review-star-rating\"]", ".a-icon-alt", ".review-rating"]

/-- The title selector list. -/
def titleSelectors : List String :=
  ["[data-hook=\"review-title\"]", ".review-title", "h5"]

/-- The body-text selector list. -/
def textSelectors : List String :=
  ["[data-hook=\"review-body\"]", ".review-text", ".review-body"]

/-- The author selector list. -/
def authorSelectors : List String :=
  [".a-profile-name", ".author"]

/-- First selector candidate that matches an element inside the container:
the `for ... querySelector ... break` pattern of the script. -/
def firstMatch (r : Container) : List String → Option Element
  | [] => none
  | s :: rest =>
    match r.query s with
    | some e => some e
    | none => firstMatch r rest

/-- A review record, fields named as in the script; `note = none` models the
empty string stored when no rating was parsed. -/
structure Review where
  id : Nat
  page : Nat
  note : Option ℚ
  titre : String
  texte : String
  date : String
  auteur : String
  achat_verifie : Bool
deriving DecidableEq

/-- Extraction of one container `r` at in-page index `idx`, with `accLen` the
length of the accumulated collection and `page` the current page counter:
the body of the `forEach` callback in `extractReviewsFromCurrentPage`. -/
def extractReview (r : Container) (accLen idx page : Nat) : Review :=
  { id := accLen + idx + 1
    page := page
    note :=
      match firstMatch r ratingSelectors with
      | some e => parsedRating e.textContent
      | none => none
    titre :=
      match firstMatch r titleSelectors with
      | some e => cleanText e.textContent
      | none => ""
    texte :=
      match firstMatch r textSelectors with
      | some e => cleanText e.textContent
      | none => ""
    date :=
      match r.query "[data-hook=\"review-date\"]" with
      | some e => cleanText e.textContent
      | none => ""
    auteur :=
      match firstMatch r authorSelectors with
      | some e => cleanText e.textContent
      | none => ""
    achat_verifie := (r.query "[data-hook=\"avp-badge\"]").isSome }

/-- The `forEach` over discovered containers: extract each, keep the record
only when its title or body is non-empty (the `if (review.titre or
review.texte)` push guard). -/
def extractLoop (accLen page : Nat) : List Container → Nat → List Review
  | [], _ => []
  | r :: rest, idx =>
    if (extractReview r accLen idx page).titre ≠ ""
        ∨ (extractReview r accLen idx page).texte ≠ "" then
      extractReview r accLen idx page :: extractLoop accLen page rest (idx + 1)
    else
      extractLoop accLen page rest (idx + 1)

/-- Container discovery: the first selector whose `querySelectorAll` result is
non-empty wins; if none matches the result is empty. -/
def findContainersLoop (doc : Document) : List String → List Container
  | [] => []
  | s :: rest =>
    let es := doc.queryAll s
    if es.length > 0 then es else findContainersLoop doc rest

/-- Containers of the current page, per `extractReviewsFromCurrentPage`. -/
def findContainers (doc : Document) : List Container :=
  findContainersLoop doc reviewSelectors

/-- `extractReviewsFromCurrentPage`: the globals `currentPage` and
`allReviews.length` it reads are passed explicitly. -/
def extractReviewsFromCurrentPage (doc : Document) (page accLen : Nat) :
    List Review :=
  extractLoop accLen page (findContainers doc) 0

/-- The navigation lookup shared by `hasNextPage` and `goToNextPage`: three
`querySelector` calls joined by JavaScript `or`. -/
def navLookup (doc : Document) : Option NavButton :=
  ((doc.query "li.a-last a").orElse fun _ =>
    ((doc.query ".a-pagination .a-last a").orElse fun _ =>
      doc.query "[data-hook=\"pagination-bar\"] .a-last a"))

/-- `hasNextPage`: the button exists and its class list lacks `a-disabled`. -/
def hasNextPage (doc : Document) : Bool :=
  match navLookup doc with
  | some b => !(b.classes.contains "a-disabled")
  | none => false

/-- `goToNextPage`: same lookup and check; `true` means the click fired (the
navigation side effect is represented by the driver moving to the next page
document). -/
def goToNextPage (doc : Document) : Bool :=
  match navLookup doc with
  | some b => !(b.classes.contains "a-disabled")
  | none => false

/-- The `checkLoaded` recursion of `waitForPageLoad`: `attempts` is
incremented, then the poll succeeds if a container is present or the attempt
ceiling is reached.  `present t` abstracts whether
`querySelectorAll` finds a container at the t-th poll.  Fuel is
`maxAttempts - 1 - attempts` at every reachable call, so the fuel-zero branch
coincides with the ceiling exit. -/
def waitLoop (present : Nat → Bool) : Nat → Nat → Nat × Bool
  | 0, attempts => (attempts + 1, present (attempts + 1))
  | fuel + 1, attempts =>
    let a := attempts + 1
    if present a ∨ maxAttempts ≤ a then (a, present a)
    else waitLoop present fuel a

/-- `waitForPageLoad`: poll from attempt 1, at most `maxAttempts` polls;
returns the exit attempt number and whether a container was observed there. -/
def waitForPageLoad (present : Nat → Bool) : Nat × Bool :=
  waitLoop present (maxAttempts - 1) 0

/-- The run state held in the module-level variables of the script. -/
structure RunState where
  allReviews : List Review
  currentPage : Nat
  isProcessing : Bool
deriving DecidableEq

/-- The state the script initialises its module-level variables to when it is
loaded: no records, page 1, not running. -/
def initialState : RunState :=
  { allReviews := [], currentPage := 1, isProcessing := false }

/-- Outcome of a `processAllPages` invocation: rejected by the entry guard,
completed normally, or terminated through the outer `catch` after a runtime
exception. -/
inductive RunResult where
  | rejected
  | completed
  | errored
deriving DecidableEq

/-- The `while (hasNextPage() and currentPage < MAX_PAGES)` loop of
`processAllPages`.  `env p` is the document displayed when the driver is on
page `p`; the wait for page load always resolves (see `waitForPageLoad`) and
extraction follows it unconditionally.  `fault = some k` injects a runtime
exception at the k-th iteration (caught by the outer handler); the returned
boolean is true when such an exception fired.  The loop increments
`currentPage` every iteration and exits once `currentPage < MAX_PAGES` fails,
so any fuel of at least `MAX_PAGES - currentPage` yields the loop behaviour. -/
def pageLoopE (env : Nat → Document) :
    Option Nat → Nat → List Review → Nat → Bool × List Review × Nat
  | _, 0, reviews, cp => (false, reviews, cp)
  | fault, fuel + 1, reviews, cp =>
    if hasNextPage (env cp) = true ∧ cp < MAX_PAGES then
      if fault = some 0 then (true, reviews, cp)
      else
        if goToNextPage (env cp) then
          pageLoopE env (fault.map (· - 1)) fuel
            (reviews ++
              extractReviewsFromCurrentPage (env (cp + 1)) (cp + 1) reviews.length)
            (cp + 1)
        else (false, reviews, cp + 1)
    else (false, reviews, cp)

/-- `processAllPages`: the full-pagination entry point.  The entry guard
rejects when `isProcessing` is set; otherwise the flag is raised, the current
page is extracted, the pagination loop runs, and - through the `finally`
block - the flag is cleared whether the `try` body completed or threw
(`fault = some 0` models an exception before the first extraction). -/
def processAllPages (env : Nat → Document) (fault : Option Nat)
    (st : RunState) : RunResult × RunState :=
  if st.isProcessing then (RunResult.rejected, st)
  else if fault = some 0 then (RunResult.errored, { st with isProcessing := false })
  else
    ((if (pageLoopE env (fault.map (· - 1)) MAX_PAGES
          (st.allReviews ++
            extractReviewsFromCurrentPage (env st.currentPage) st.currentPage
              st.allReviews.length)
          st.currentPage).1 then RunResult.errored else RunResult.completed),
      { allReviews :=
          (pageLoopE env (fault.map (· - 1)) MAX_PAGES
            (st.allReviews ++
              extractReviewsFromCurrentPage (env st.currentPage) st.currentPage
                st.allReviews.length)
            st.currentPage).2.1
        currentPage :=
          (pageLoopE env (fault.map (· - 1)) MAX_PAGES
            (st.allReviews ++
              extractReviewsFromCurrentPage (env st.currentPage) st.currentPage
                st.allReviews.length)
            st.currentPage).2.2
        isProcessing := false })

/-- `scrapCurrentPageOnly`: the single-page entry point, bypassing the state
machine. -/
def scrapCurrentPageOnly (doc : Document) (st : RunState) : List Review :=
  extractReviewsFromCurrentPage doc st.currentPage st.allReviews.length

/-- The aggregate summary the completion code computes: total count, the
`noteStats` distribution, and the verified-purchase count (the script prints
verified and total side by side; it never executes a division). -/
structure Stats where
  total : Nat
  noteStats : List (Option ℚ × Nat)
  verified : Nat
deriving DecidableEq

/-- One step of `noteStats[review.note] = (noteStats[review.note] or 0) + 1`. -/
def bumpNote (m : List (Option ℚ × Nat)) (k : Option ℚ) : List (Option ℚ × Nat) :=
  match m with
  | [] => [(k, 1)]
  | (k2, c) :: rest =>
    if k2 = k then (k2, c + 1) :: rest else (k2, c) :: bumpNote rest k

/-- The rating distribution built by the completion code. -/
def noteDistribution (rs : List Review) : List (Option ℚ × Nat) :=
  rs.foldl (fun m r => bumpNote m r.note) []

/-- The statistics assembled at run completion (lines 202-211 of the script). -/
def finalStats (rs : List Review) : Stats :=
  { total := rs.length
    noteStats := noteDistribution rs
    verified := (rs.filter (fun r => r.achat_verifie)).length }

/-- The record collection a `processAllPages` invocation leaves behind. -/
def runOutput (env : Nat → Document) (fault : Option Nat) (st : RunState) :
    List Review :=
  ((processAllPages env fault st).2).allReviews

/-- Test fixture: a container whose fields answer the primary selectors. -/
def mkContainer (rating title body date author : Option String)
    (verified : Bool) : Container :=
  { query := fun s =>
      if s = "[data-hook=\"review-star-rating\"]" then rating.map Element.mk
      else if s = "[data-hook=\"review-title\"]" then title.map Element.mk
      else if s = "[data-hook=\"review-body\"]" then body.map Element.mk
      else if s = "[data-hook=\"review-date\"]" then date.map Element.mk
      else if s = ".a-profile-name" then author.map Element.mk
      else if s = "[data-hook=\"avp-badge\"]" then
        (if verified then some (Element.mk "") else none)
      else none }

/-- Test fixture: a kept container carrying only a title. -/
def kc (t : String) : Container :=
  mkContainer none (some t) none none none false

/-- Test fixture: a container whose normalized title and body are empty. -/
def emptyContainer : Container :=
  mkContainer none none none none none false

/-- Test fixture: a page document with the given containers and a next button
that is enabled iff `next` is true. -/
def pageDoc (cs : List Container) (next : Bool) : Document :=
  { queryAll := fun s => if s = "[data-hook=\"review\"]" then cs else []
    query := fun s =>
      if s = "li.a-last a" then
        some { classes := if next then [] else ["a-disabled"] }
      else none }

/-- Environment for the two-run persistence scenario: one review on page 1,
one on page 2, no further page. -/
def env2 : Nat → Document
  | 1 => pageDoc [kc "a"] true
  | 2 => pageDoc [kc "b"] false
  | _ => pageDoc [] false

/-- Environment for the id-collision scenario: page 1 holds a discarded
container then a kept one, page 2 holds one kept container. -/
def env3 : Nat → Document
  | 1 => pageDoc [emptyContainer, kc "x"] true
  | 2 => pageDoc [kc "y"] false
  | _ => pageDoc [] false

/-- Environment with pages of 3, 5, 0 and 2 kept containers and a next page
available until after the 4th page. -/
def env4 : Nat → Document
  | 1 => pageDoc [kc "a1", kc "a2", kc "a3"] true
  | 2 => pageDoc [kc "b1", kc "b2", kc "b3", kc "b4", kc "b5"] true
  | 3 => pageDoc [] true
  | 4 => pageDoc [kc "c1", kc "c2"] false
  | _ => pageDoc [] false

/-- Environment in which a next page is always available. -/
def envAll : Nat → Document :=
  fun _ => pageDoc [kc "a"] true

/-- Environment with no containers and no next page anywhere. -/
def envEmpty : Nat → Document :=
  fun _ => pageDoc [] false

/-- Test fixture: container with a comma-decimal rating text. -/
def containerComma : Container :=
  mkContainer (some "4,5 sur 5 etoiles") (some "t") none none none false

/-- Test fixture: container with a dot-decimal rating text. -/
def containerDot : Container :=
  mkContainer (some "4.5 out of 5 stars") (some "t") none none none false

/-- Test fixture: container whose rating text holds no digit. -/
def containerNoDigit : Container :=
  mkContainer (some "no stars here") (some "t") none none none false

/-- Test fixture: a kept container carrying a title and the
verified-purchase badge. -/
def vc (t : String) : Container :=
  mkContainer none (some t) none none none true

/-- Environment for the summary scenario: one page holding an unverified and
a verified review, no further page. -/
def env7 : Nat → Document :=
  fun _ => pageDoc [kc "a", vc "b"] false


/-- Helper: the rating regex result on the comma text used in claim C1. -/
theorem ratingMatch_comma : ratingMatch ("4,5 sur 5 etoiles".data) = some (4, some 5) := by
  decide

/-- Helper: the rating regex result on the dot text used in claim C1. -/
theorem ratingMatch_dot : ratingMatch ("4.5 out of 5 stars".data) = some (4, none) := by
  decide

/-- Helper: the rating regex finds nothing in a digit-free text. -/
theorem ratingMatch_noDigit : ratingMatch ("no stars here".data) = none := by
  decide

/-- Claim C1, counterexample: a rating text containing the dot form `4.5`
does not parse to 4.5 - the regex accepts only a comma decimal or a bare
digit, so the extractor stores 4. -/
theorem C1_counterexample :
    (extractReview containerDot 0 0 1).note = some (4 : ℚ)
    ∧ (extractReview containerDot 0 0 1).note ≠ some ((9 : ℚ) / 2) := by
  have h : (extractReview containerDot 0 0 1).note
      = parsedRating "4.5 out of 5 stars" := rfl
  rw [h]
  unfold parsedRating
  rw [ratingMatch_dot]
  norm_num

/-- Claim C1 (amended): a rating text whose leftmost regex match is the comma
form `4,5` parses to 4.5 (comma normalised to a dot); the dot form `4.5`
matches only the single digit and parses to 4; a text with no digit leaves
the rating absent rather than raising an error. -/
theorem C1_rating :
    (extractReview containerComma 0 0 1).note = some ((9 : ℚ) / 2)
    ∧ (extractReview containerDot 0 0 1).note = some (4 : ℚ)
    ∧ (extractReview containerNoDigit 0 0 1).note = none := by
  have h1 : (extractReview containerComma 0 0 1).note
      = parsedRating "4,5 sur 5 etoiles" := rfl
  have h2 : (extractReview containerDot 0 0 1).note
      = parsedRating "4.5 out of 5 stars" := rfl
  have h3 : (extractReview containerNoDigit 0 0 1).note
      = parsedRating "no stars here" := rfl
  rw [h1, h2, h3]
  unfold parsedRating
  rw [ratingMatch_comma, ratingMatch_dot, ratingMatch_noDigit]
  norm_num

/-- Claim C4: on pages with 3, 5, 0 and 2 containers and a next page until
after the 4th, the full run yields 10 records with page fields
1,1,1,2,2,2,2,2,4,4 in order, completes, and visits exactly 4 pages. -/
theorem C4_trace :
    ((processAllPages env4 none initialState).2).allReviews.map (fun r => r.page)
      = [1, 1, 1, 2, 2, 2, 2, 2, 4, 4]
    ∧ ((processAllPages env4 none initialState).2).allReviews.length = 10
    ∧ ((processAllPages env4 none initialState).2).currentPage = 4
    ∧ (processAllPages env4 none initialState).1 = RunResult.completed := by
  decide

/-- Claim C6: a run request arriving while `isProcessing` is set returns
rejected and leaves the state - records, page counter and flag - unchanged. -/
theorem C6_guard (env : Nat → Document) (fault : Option Nat) (st : RunState)
    (h : st.isProcessing = true) :
    processAllPages env fault st = (RunResult.rejected, st) := by
  simp [processAllPages, h]

/-- Witness for claim C6 at a concrete busy state. -/
theorem C6_witness :
    processAllPages env2 none
        { allReviews := [], currentPage := 1, isProcessing := true }
      = (RunResult.rejected,
          { allReviews := [], currentPage := 1, isProcessing := true }) :=
  C6_guard env2 none
    { allReviews := [], currentPage := 1, isProcessing := true } rfl

/-- Helper: every record the extraction loop keeps has a non-empty title or
body - the push guard filters the rest. -/
theorem mem_extractLoop_nonempty (accLen page : Nat) (cs : List Container) :
    ∀ (idx : Nat) (r : Review),
      r ∈ extractLoop accLen page cs idx → r.titre ≠ "" ∨ r.texte ≠ "" := by
  induction cs with
  | nil => intro idx r h; simp [extractLoop] at h
  | cons c rest ih =>
    intro idx r h
    rw [extractLoop] at h
    by_cases hc : (extractReview c accLen idx page).titre ≠ ""
        ∨ (extractReview c accLen idx page).texte ≠ ""
    · rw [if_pos hc] at h
      rcases List.mem_cons.mp h with h1 | h2
      · rw [h1]; exact hc
      · exact ih (idx + 1) r h2
    · rw [if_neg hc] at h
      exact ih (idx + 1) r h

/-- Claim C8: a record appears in the extractor output only if its normalized
title or body is non-empty; a container whose normalized title and body are
both empty produces no record. -/
theorem C8_discard (doc : Document) (page accLen : Nat) (r : Review)
    (h : r ∈ extractReviewsFromCurrentPage doc page accLen) :
    r.titre ≠ "" ∨ r.texte ≠ "" :=
  mem_extractLoop_nonempty accLen page (findContainers doc) 0 r h

/-- Witness for claim C8 at a concrete one-container page. -/
theorem C8_witness :
    extractReview (kc "x") 0 0 1
        ∈ extractReviewsFromCurrentPage (pageDoc [kc "x"] false) 1 0
    ∧ ((extractReview (kc "x") 0 0 1).titre ≠ ""
        ∨ (extractReview (kc "x") 0 0 1).texte ≠ "") := by
  have hm : extractReview (kc "x") 0 0 1
      ∈ extractReviewsFromCurrentPage (pageDoc [kc "x"] false) 1 0 := by decide
  exact ⟨hm, C8_discard (pageDoc [kc "x"] false) 1 0 _ hm⟩

/-- Helper: every record the extraction loop keeps comes from the container at
some index `j` of the remaining list, extracted at in-page index `idx + j`. -/
theorem mem_extractLoop_exists (accLen page : Nat) (cs : List Container) :
    ∀ (idx : Nat) (r : Review),
      r ∈ extractLoop accLen page cs idx →
      ∃ j c, cs.get? j = some c ∧ r = extractReview c accLen (idx + j) page := by
  induction cs with
  | nil => intro idx r h; simp [extractLoop] at h
  | cons c rest ih =>
    intro idx r h
    rw [extractLoop] at h
    by_cases hc : (extractReview c accLen idx page).titre ≠ ""
        ∨ (extractReview c accLen idx page).texte ≠ ""
    · rw [if_pos hc] at h
      rcases List.mem_cons.mp h with h1 | h2
      · exact ⟨0, c, rfl, by simpa using h1⟩
      · rcases ih (idx + 1) r h2 with ⟨j, c2, hg, hr⟩
        refine ⟨j + 1, c2, by simpa using hg, ?_⟩
        have harith : idx + (j + 1) = idx + 1 + j := by omega
        rw [harith]; exact hr
    · rw [if_neg hc] at h
      rcases ih (idx + 1) r h with ⟨j, c2, hg, hr⟩
      refine ⟨j + 1, c2, by simpa using hg, ?_⟩
      have harith : idx + (j + 1) = idx + 1 + j := by omega
      rw [harith]; exact hr

/-- Helper: ids produced by the extraction loop are bounded below by
`accLen + idx + 1`. -/
theorem mem_extractLoop_id_lb (accLen page : Nat) (cs : List Container) :
    ∀ (idx : Nat) (r : Review),
      r ∈ extractLoop accLen page cs idx → accLen + idx + 1 ≤ r.id := by
  induction cs with
  | nil => intro idx r h; simp [extractLoop] at h
  | cons c rest ih =>
    intro idx r h
    rw [extractLoop] at h
    by_cases hc : (extractReview c accLen idx page).titre ≠ ""
        ∨ (extractReview c accLen idx page).texte ≠ ""
    · rw [if_pos hc] at h
      rcases List.mem_cons.mp h with h1 | h2
      · rw [h1]; exact Nat.le_refl _
      · have := ih (idx + 1) r h2
        omega
    · rw [if_neg hc] at h
      have := ih (idx + 1) r h
      omega

/-- Helper: within one page extraction the ids are strictly increasing. -/
theorem extractLoop_ids_sorted (accLen page : Nat) (cs : List Container) :
    ∀ (idx : Nat),
      ((extractLoop accLen page cs idx).map (fun r => r.id)).Pairwise (· < ·) := by
  induction cs with
  | nil => intro idx; simp [extractLoop]
  | cons c rest ih =>
    intro idx
    rw [extractLoop]
    by_cases hc : (extractReview c accLen idx page).titre ≠ ""
        ∨ (extractReview c accLen idx page).texte ≠ ""
    · rw [if_pos hc]
      rw [List.map_cons, List.pairwise_cons]
      refine ⟨?_, ih (idx + 1)⟩
      intro b hb
      rcases List.mem_map.mp hb with ⟨r, hr, hb2⟩
      have := mem_extractLoop_id_lb accLen page rest (idx + 1) r hr
      have hid : (extractReview c accLen idx page).id = accLen + idx + 1 := rfl
      omega
    · rw [if_neg hc]
      exact ih (idx + 1)

/-- Claim C3 (amended): each extracted record's id equals the accumulated
count at the start of its page plus its container index plus 1, and the ids
are unique within one page extraction; across pages of one run ids can
collide once containers are discarded (see the counterexample). -/
theorem C3_ids (doc : Document) (page accLen : Nat) (r : Review)
    (h : r ∈ extractReviewsFromCurrentPage doc page accLen) :
    (∃ i c, (findContainers doc).get? i = some c
        ∧ r = extractReview c accLen i page ∧ r.id = accLen + i + 1)
    ∧ ((extractReviewsFromCurrentPage doc page accLen).map (fun x => x.id)).Nodup := by
  constructor
  · rcases mem_extractLoop_exists accLen page (findContainers doc) 0 r h with ⟨j, c, hg, hr⟩
    refine ⟨j, c, hg, by simpa using hr, ?_⟩
    rw [hr]
    simp [extractReview]
  · exact (extractLoop_ids_sorted accLen page (findContainers doc) 0).imp
      fun hlt => Nat.ne_of_lt hlt

/-- Claim C3, counterexample: with a discarded container on page 1, the kept
record there gets id 2, and the first record of page 2 also gets id 2 - ids
are not unique across the pages of one run. -/
theorem C3_counterexample :
    ((processAllPages env3 none initialState).2).allReviews.map (fun r => r.id)
      = [2, 2]
    ∧ ¬ (((processAllPages env3 none initialState).2).allReviews.map
          (fun r => r.id)).Nodup := by
  decide

/-- Witness for claim C3 at a concrete one-container page. -/
theorem C3_witness :
    (∃ i c, (findContainers (pageDoc [kc "x"] false)).get? i = some c
        ∧ extractReview (kc "x") 0 0 1 = extractReview c 0 i 1
        ∧ (extractReview (kc "x") 0 0 1).id = 0 + i + 1)
    ∧ ((extractReviewsFromCurrentPage (pageDoc [kc "x"] false) 1 0).map
        (fun x => x.id)).Nodup :=
  C3_ids (pageDoc [kc "x"] false) 1 0 (extractReview (kc "x") 0 0 1) (by decide)

/-- Helper: the pagination loop only appends to the accumulated collection and
never decreases the page counter. -/
theorem pageLoopE_extends (env : Nat → Document) :
    ∀ (fuel : Nat) (fault : Option Nat) (reviews : List Review) (cp : Nat),
      (∃ tail, (pageLoopE env fault fuel reviews cp).2.1 = reviews ++ tail)
      ∧ cp ≤ (pageLoopE env fault fuel reviews cp).2.2 := by
  intro fuel
  induction fuel with
  | zero =>
    intro fault reviews cp
    exact ⟨⟨[], by simp [pageLoopE]⟩, by simp [pageLoopE]⟩
  | succ fuel ih =>
    intro fault reviews cp
    rw [pageLoopE]
    by_cases h1 : hasNextPage (env cp) = true ∧ cp < MAX_PAGES
    · rw [if_pos h1]
      by_cases h2 : fault = some 0
      · rw [if_pos h2]
        exact ⟨⟨[], by simp⟩, Nat.le_refl _⟩
      · rw [if_neg h2]
        by_cases h3 : goToNextPage (env cp) = true
        · rw [if_pos h3]
          rcases ih (fault.map (· - 1))
              (reviews ++
                extractReviewsFromCurrentPage (env (cp + 1)) (cp + 1) reviews.length)
              (cp + 1) with ⟨⟨tail, htail⟩, hcp⟩
          refine ⟨⟨extractReviewsFromCurrentPage (env (cp + 1)) (cp + 1) reviews.length
              ++ tail, ?_⟩, ?_⟩
          · rw [htail, List.append_assoc]
          · omega
        · rw [if_neg h3]
          exact ⟨⟨[], by simp⟩, Nat.le_succ cp⟩
    · rw [if_neg h1]
      exact ⟨⟨[], by simp⟩, Nat.le_refl _⟩

/-- Claim C2 (amended): the run state is initialised - empty records, page 1,
idle - only when the script is loaded; invoking the full-pagination entry
point performs no reset: it appends to whatever records are already
accumulated and resumes from the current page counter, so records and page
count persist between runs of one session. -/
theorem C2_persistence (env : Nat → Document) (fault : Option Nat)
    (st : RunState) (h : st.isProcessing = false) :
    initialState.allReviews = [] ∧ initialState.currentPage = 1
    ∧ (∃ tail, ((processAllPages env fault st).2).allReviews
        = st.allReviews ++ tail)
    ∧ st.currentPage ≤ ((processAllPages env fault st).2).currentPage := by
  refine ⟨rfl, rfl, ?_, ?_⟩
  · unfold processAllPages
    rw [if_neg (by simp [h])]
    by_cases h2 : fault = some 0
    · rw [if_pos h2]
      exact ⟨[], by simp⟩
    · rw [if_neg h2]
      rcases (pageLoopE_extends env MAX_PAGES (fault.map (· - 1))
          (st.allReviews ++
            extractReviewsFromCurrentPage (env st.currentPage) st.currentPage
              st.allReviews.length)
          st.currentPage).1 with ⟨tail, htail⟩
      exact ⟨extractReviewsFromCurrentPage (env st.currentPage) st.currentPage
          st.allReviews.length ++ tail, by simpa [List.append_assoc] using htail⟩
  · unfold processAllPages
    rw [if_neg (by simp [h])]
    by_cases h2 : fault = some 0
    · rw [if_pos h2]
    · rw [if_neg h2]
      exact (pageLoopE_extends env MAX_PAGES (fault.map (· - 1))
          (st.allReviews ++
            extractReviewsFromCurrentPage (env st.currentPage) st.currentPage
              st.allReviews.length)
          st.currentPage).2

/-- Claim C2, counterexample: after a completed run over two pages the state
holds 2 records and page counter 2, and a second invocation starts from that
state - it appends a third record instead of starting from an empty
collection at page 1. -/
theorem C2_counterexample :
    ((processAllPages env2 none initialState).2).allReviews ≠ []
    ∧ ((processAllPages env2 none initialState).2).currentPage ≠ 1
    ∧ ((processAllPages env2 none
          ((processAllPages env2 none initialState).2)).2).allReviews.length = 3 := by
  decide

/-- Witness for claim C2 at the loaded-script state. -/
theorem C2_witness :
    initialState.allReviews = [] ∧ initialState.currentPage = 1
    ∧ (∃ tail, ((processAllPages env2 none initialState).2).allReviews
        = initialState.allReviews ++ tail)
    ∧ initialState.currentPage
        ≤ ((processAllPages env2 none initialState).2).currentPage :=
  C2_persistence env2 none initialState rfl

/-- Helper: the navigation trigger succeeds exactly when the next-page
predicate holds - both read the same button through the same selector
chain. -/
theorem goToNextPage_eq_hasNextPage (doc : Document) :
    goToNextPage doc = hasNextPage doc := rfl

/-- Helper: with a next page always available and no fault, the loop stops
exactly at the page ceiling. -/
theorem pageLoopE_saturates (env : Nat → Document)
    (hnext : ∀ p, hasNextPage (env p) = true) :
    ∀ (fuel cp : Nat) (reviews : List Review),
      MAX_PAGES ≤ cp + fuel → cp ≤ MAX_PAGES →
      (pageLoopE env none fuel reviews cp).2.2 = MAX_PAGES
      ∧ (pageLoopE env none fuel reviews cp).1 = false := by
  intro fuel
  induction fuel with
  | zero =>
    intro cp reviews h1 h2
    constructor
    · simp [pageLoopE]; omega
    · simp [pageLoopE]
  | succ fuel ih =>
    intro cp reviews h1 h2
    rw [pageLoopE]
    by_cases hcp : cp < MAX_PAGES
    · rw [if_pos ⟨hnext cp, hcp⟩]
      rw [if_neg (by simp : ¬ (none : Option Nat) = some 0)]
      rw [if_pos (by rw [goToNextPage_eq_hasNextPage]; exact hnext cp)]
      have hmap : (none : Option Nat).map (· - 1) = none := rfl
      rw [hmap]
      exact ih (cp + 1) _ (by omega) (by omega)
    · rw [if_neg (by tauto)]
      constructor
      · simp; omega
      · simp

/-- Claim C5: when a next page is always available, a fresh run terminates
normally - Completed, not an error - having visited exactly the safety
ceiling of MAX_PAGES pages. -/
theorem C5_ceiling (env : Nat → Document)
    (hnext : ∀ p, hasNextPage (env p) = true) :
    (processAllPages env none initialState).1 = RunResult.completed
    ∧ ((processAllPages env none initialState).2).currentPage = MAX_PAGES := by
  have hsat := pageLoopE_saturates env hnext MAX_PAGES 1
      (([] : List Review) ++
        extractReviewsFromCurrentPage (env 1) 1 ([] : List Review).length)
      (by norm_num [MAX_PAGES]) (by norm_num [MAX_PAGES])
  unfold processAllPages
  rw [if_neg (by simp [initialState])]
  rw [if_neg (by simp : ¬ (none : Option Nat) = some 0)]
  have hmap : (none : Option Nat).map (· - 1) = none := rfl
  simp only [hmap, show initialState.allReviews = [] from rfl,
    show initialState.currentPage = 1 from rfl]
  rw [if_neg (by simp only [Bool.not_eq_true]; simpa using hsat.2)]
  exact ⟨rfl, by simpa using hsat.1⟩

/-- Witness for claim C5: a concrete environment whose next button is always
enabled. -/
theorem C5_witness :
    (processAllPages envAll none initialState).1 = RunResult.completed
    ∧ ((processAllPages envAll none initialState).2).currentPage = MAX_PAGES :=
  C5_ceiling envAll (fun _ => rfl)

/-- Claim C7, counterexample: a completed run over `env7` yields 2 records of
which 1 is verified, so the claimed verifiedRatio would be 1/2; but the
summary the completion code assembles consists solely of the natural-number
counts total = 2, verified = 1 and the single distribution count 2 - no
component of the emitted summary equals 1/2, so the summary contains no
verifiedRatio equal to verified/total. -/
theorem C7_counterexample :
    (finalStats (runOutput env7 none initialState)).total = 2
    ∧ (finalStats (runOutput env7 none initialState)).verified = 1
    ∧ (finalStats (runOutput env7 none initialState)).noteStats = [(none, 2)]
    ∧ ((finalStats (runOutput env7 none initialState)).verified : ℚ)
        / ((finalStats (runOutput env7 none initialState)).total : ℚ) = 1 / 2
    ∧ ((finalStats (runOutput env7 none initialState)).total : ℚ) ≠ 1 / 2
    ∧ ((finalStats (runOutput env7 none initialState)).verified : ℚ) ≠ 1 / 2
    ∧ (∀ p ∈ (finalStats (runOutput env7 none initialState)).noteStats,
        ((p.2 : Nat) : ℚ) ≠ 1 / 2) := by
  have hs : finalStats (runOutput env7 none initialState)
      = { total := 2, noteStats := [(none, 2)], verified := 1 } := by decide
  rw [hs]
  refine ⟨rfl, rfl, rfl, by norm_num, by norm_num, by norm_num, ?_⟩
  intro p hp
  rcases List.mem_singleton.mp hp with rfl
  norm_num

/-- Claim C7 (amended): on run completion the emitted aggregate summary
contains the total record count, the rating distribution and the
verified-purchase count reported alongside the total; the verified count
never exceeds the total; no verifiedRatio is computed and no division is
executed, so a zero-record run reports the counts 0 and 0 with no
division-by-zero failure. -/
theorem C7_summary (env : Nat → Document) (fault : Option Nat) (st : RunState) :
    (finalStats (runOutput env fault st)).total = (runOutput env fault st).length
    ∧ (finalStats (runOutput env fault st)).verified
        = ((runOutput env fault st).filter (fun r => r.achat_verifie)).length
    ∧ (finalStats (runOutput env fault st)).verified
        ≤ (finalStats (runOutput env fault st)).total
    ∧ (finalStats (runOutput envEmpty none initialState)).total = 0
    ∧ (finalStats (runOutput envEmpty none initialState)).verified = 0 := by
  refine ⟨rfl, rfl, List.length_filter_le _ _, ?_, ?_⟩
  · decide
  · decide

/-- Helper: the poll loop exits within `fuel + 1` further attempts. -/
theorem waitLoop_le (present : Nat → Bool) :
    ∀ (fuel attempts : Nat),
      (waitLoop present fuel attempts).1 ≤ attempts + fuel + 1 := by
  intro fuel
  induction fuel with
  | zero => intro attempts; simp [waitLoop]
  | succ fuel ih =>
    intro attempts
    rw [waitLoop]
    by_cases h : present (attempts + 1) = true ∨ maxAttempts ≤ attempts + 1
    · rw [if_pos h]; omega
    · rw [if_neg h]
      have := ih (attempts + 1)
      omega

/-- Helper: every attempt strictly before the exit attempt observed no
container - the loop stops at the first success. -/
theorem waitLoop_first (present : Nat → Bool) :
    ∀ (fuel attempts t : Nat), attempts + 1 ≤ t →
      t < (waitLoop present fuel attempts).1 → present t = false := by
  intro fuel
  induction fuel with
  | zero =>
    intro attempts t h1 h2
    simp [waitLoop] at h2
    omega
  | succ fuel ih =>
    intro attempts t h1 h2
    rw [waitLoop] at h2
    by_cases h : present (attempts + 1) = true ∨ maxAttempts ≤ attempts + 1
    · rw [if_pos h] at h2; omega
    · rw [if_neg h] at h2
      rcases Nat.eq_or_lt_of_le h1 with heq | hlt
      · push_neg at h
        rw [heq] at h
        simpa using h.1
      · exact ih (attempts + 1) t hlt h2

/-- Helper: with the invariant `attempts + fuel + 1 = maxAttempts`, the poll
loop either exits on an observed container or at exactly the attempt
ceiling. -/
theorem waitLoop_exit (present : Nat → Bool) :
    ∀ (fuel attempts : Nat), attempts + fuel + 1 = maxAttempts →
      (waitLoop present fuel attempts).2 = true
      ∨ (waitLoop present fuel attempts).1 = maxAttempts := by
  intro fuel
  induction fuel with
  | zero =>
    intro attempts h
    right
    simp [waitLoop]
    omega
  | succ fuel ih =>
    intro attempts h
    rw [waitLoop]
    by_cases hp : present (attempts + 1) = true ∨ maxAttempts ≤ attempts + 1
    · rw [if_pos hp]
      rcases hp with hp1 | hp2
      · exact Or.inl hp1
      · right; simp; omega
    · rw [if_neg hp]
      exact ih (attempts + 1) (by omega)

/-- Helper: without fault injection the pagination loop never reports an
exception. -/
theorem pageLoopE_no_fault (env : Nat → Document) :
    ∀ (fuel : Nat) (reviews : List Review) (cp : Nat),
      (pageLoopE env none fuel reviews cp).1 = false := by
  intro fuel
  induction fuel with
  | zero => intro reviews cp; simp [pageLoopE]
  | succ fuel ih =>
    intro reviews cp
    rw [pageLoopE]
    by_cases h1 : hasNextPage (env cp) = true ∧ cp < MAX_PAGES
    · rw [if_pos h1]
      rw [if_neg (by simp : ¬ (none : Option Nat) = some 0)]
      by_cases h3 : goToNextPage (env cp) = true
      · rw [if_pos h3]
        exact ih _ _
      · rw [if_neg h3]
    · rw [if_neg h1]

/-- Claim C9: the load wait terminates after at most `maxAttempts` polls,
stops at the first poll observing a container, exits either on success or at
the attempt ceiling, and in either case a fault-free run proceeds to extract
and completes rather than aborting. -/
theorem C9_wait (present : Nat → Bool) (env : Nat → Document) (st : RunState)
    (h : st.isProcessing = false) :
    (waitForPageLoad present).1 ≤ maxAttempts
    ∧ (∀ t, 1 ≤ t → t < (waitForPageLoad present).1 → present t = false)
    ∧ ((waitForPageLoad present).2 = true
        ∨ (waitForPageLoad present).1 = maxAttempts)
    ∧ (processAllPages env none st).1 = RunResult.completed := by
  refine ⟨?_, ?_, ?_, ?_⟩
  · have hle := waitLoop_le present (maxAttempts - 1) 0
    have h30 : maxAttempts = 30 := rfl
    unfold waitForPageLoad
    omega
  · intro t h1 h2
    exact waitLoop_first present (maxAttempts - 1) 0 t h1 h2
  · exact waitLoop_exit present (maxAttempts - 1) 0 (by norm_num [maxAttempts])
  · unfold processAllPages
    rw [if_neg (by simp [h])]
    rw [if_neg (by simp : ¬ (none : Option Nat) = some 0)]
    have hmap : (none : Option Nat).map (· - 1) = none := rfl
    simp only [hmap]
    rw [if_neg (by simp [pageLoopE_no_fault])]

/-- Witness for claim C9: a page that never loads within the poll budget. -/
theorem C9_witness :
    (waitForPageLoad (fun _ => false)).1 ≤ maxAttempts
    ∧ (∀ t, 1 ≤ t → t < (waitForPageLoad (fun _ => false)).1 →
        (fun _ => false : Nat → Bool) t = false)
    ∧ ((waitForPageLoad (fun _ => false)).2 = true
        ∨ (waitForPageLoad (fun _ => false)).1 = maxAttempts)
    ∧ (processAllPages envEmpty none initialState).1 = RunResult.completed :=
  C9_wait (fun _ => false) envEmpty initialState rfl

/-- Helper: a non-rejected invocation leaves the running flag cleared - the
`finally` block runs on the normal and on the exception path alike. -/
theorem processAllPages_clears_flag (env : Nat → Document) (fault : Option Nat)
    (st : RunState) (h : st.isProcessing = false) :
    ((processAllPages env fault st).2).isProcessing = false := by
  unfold processAllPages
  rw [if_neg (by simp [h])]
  by_cases h2 : fault = some 0
  · rw [if_pos h2]
  · rw [if_neg h2]

/-- Helper: an invocation that passes the entry guard never returns the
rejected outcome. -/
theorem processAllPages_not_rejected (env : Nat → Document) (fault : Option Nat)
    (st : RunState) (h : st.isProcessing = false) :
    (processAllPages env fault st).1 ≠ RunResult.rejected := by
  unfold processAllPages
  rw [if_neg (by simp [h])]
  by_cases h2 : fault = some 0
  · rw [if_pos h2]; simp
  · rw [if_neg h2]
    by_cases h3 : (pageLoopE env (fault.map (· - 1)) MAX_PAGES
        (st.allReviews ++
          extractReviewsFromCurrentPage (env st.currentPage) st.currentPage
            st.allReviews.length)
        st.currentPage).1 = true
    · rw [if_pos h3]; simp
    · rw [if_neg h3]; simp

/-- Claim C10: after an invocation of the full-pagination entry point that
actually ran returns - normally or through the exception handler - the
running flag is false, so a subsequent run request is not rejected by the
entry guard. -/
theorem C10_flag (env : Nat → Document) (fault fault2 : Option Nat)
    (st : RunState) (h : st.isProcessing = false) :
    ((processAllPages env fault st).2).isProcessing = false
    ∧ (processAllPages env fault2 ((processAllPages env fault st).2)).1
        ≠ RunResult.rejected :=
  ⟨processAllPages_clears_flag env fault st h,
    processAllPages_not_rejected env fault2 _
      (processAllPages_clears_flag env fault st h)⟩

/-- Witness for claim C10, exercising the exception path: a fault at the
first loop iteration. -/
theorem C10_witness :
    ((processAllPages env2 (some 1) initialState).2).isProcessing = false
    ∧ (processAllPages env2 none
        ((processAllPages env2 (some 1) initialState).2)).1
        ≠ RunResult.rejected :=
  C10_flag env2 (some 1) none initialState rfl
